import Mathlib

/-!
Shallow embedding of the notification scheduler of `react-native-notifier`
(`src/Notifier.tsx`).  The scheduler is the `NotifierRoot` class: it owns the
mutable fields `isShown`, `isHiding`, `hideTimer`, `currentParams`,
`showParams`, `callStack` and the React state `id`.  We model these mutable
fields as a record `NotifierState` and every method of the class as a pure
state transformer.  The animation driver and the timer are external
collaborators: an exit animation started by `hideNotification` (or by the
swipe-out branch of `onHandlerStateChange`) is modelled as a pending
completion (`pendingHidden` counter) that is delivered later by the event
`animDone`; a `setTimeout` whose callback is still pending is modelled by
`hideTimer : Option Int` and delivered by the event `timerFire`.

JavaScript object identity matters for `callStack.unshift(this.currentParams)`:
`showNotification` builds a fresh merged object on every call, so we tag each
stored request with an allocation counter `nextTag`.  Optional JS fields are
`Option`; JS numbers that may be `NaN` are `JSNum`.
-/

/-- A JavaScript number as the scheduler observes it: an integer value or NaN
(floats beyond the claims' inputs are not needed). -/
inductive JSNum where
  | num (n : Int)
  | nan
deriving DecidableEq, Repr

/-- JS truthiness of a number: `0` and `NaN` are falsy. -/
def JSNum.truthy : JSNum → Bool
  | .num n => n != 0
  | .nan => false

/-- `isNaN` on a `JSNum`. -/
def JSNum.isNaNb : JSNum → Bool
  | .num _ => false
  | .nan => true

/-- The scheduler-relevant fields of `ShowNotificationParams` (`src/types.ts`).
Fields absent from a JS object are `none`.  `queueMode` is kept as a raw
string so that unrecognized values reach the `default` branch of the switch
exactly as in the source. -/
structure ParamFields where
  id : Option String
  queueMode : Option String
  strong : Option Bool
  skipAlreadyShown : Option Bool
  skipAlreadyInQueue : Option Bool
  duration : Option JSNum
  hideOnPress : Option Bool
  swipePixelsToClose : Option JSNum
deriving DecidableEq, Repr

/-- A params object with no field set (`{}`). -/
def ParamFields.empty : ParamFields :=
  ⟨none, none, none, none, none, none, none, none⟩

/-- `{...props, ...functionParams}`: a key present in `functionParams` wins,
otherwise the key of `props` is used. -/
def mergeFields (props fp : ParamFields) : ParamFields where
  id := fp.id.orElse fun _ => props.id
  queueMode := fp.queueMode.orElse fun _ => props.queueMode
  strong := fp.strong.orElse fun _ => props.strong
  skipAlreadyShown := fp.skipAlreadyShown.orElse fun _ => props.skipAlreadyShown
  skipAlreadyInQueue := fp.skipAlreadyInQueue.orElse fun _ => props.skipAlreadyInQueue
  duration := fp.duration.orElse fun _ => props.duration
  hideOnPress := fp.hideOnPress.orElse fun _ => props.hideOnPress
  swipePixelsToClose := fp.swipePixelsToClose.orElse fun _ => props.swipePixelsToClose

/-- `showParams = restParams`: the destructuring in `showNotification` removes
`id` (together with content fields we do not model) before storing
`this.showParams`. -/
def restFields (f : ParamFields) : ParamFields := { f with id := none }

/-- A merged params object as stored in `callStack` / `currentParams`:
the fields plus the identity of the object built by the spread in
`showNotification`. -/
structure Req where
  tag : Nat
  fields : ParamFields
deriving DecidableEq, Repr

/-- The mutable scheduler state of `NotifierRoot`.  `pendingHidden` counts
exit animations in flight whose completion callback will run `onHidden`;
`startHidingCount` is a ghost counter of `onStartHiding` invocations. -/
structure NotifierState where
  isShown : Bool
  isHiding : Bool
  hideTimer : Option Int
  currentParams : Option Req
  showParams : Option ParamFields
  callStack : List Req
  stateId : Option String
  pendingHidden : Nat
  nextTag : Nat
  startHidingCount : Nat
deriving DecidableEq, Repr

/-- The state set up by the `NotifierRoot` constructor. -/
def initState : NotifierState :=
  ⟨false, false, none, none, none, [], none, 0, 0, 0⟩

/-- Modelled from the spec: `DEFAULT_DURATION` lives in `src/constants.ts`,
which is not part of the provided sources; §6 of the spec fixes the default
auto-hide `duration` at 3000. -/
def DEFAULT_DURATION : JSNum := .num 3000

/-- Modelled from the spec: `SWIPE_PIXELS_TO_CLOSE` lives in
`src/constants.ts`, which is not part of the provided sources; §6 of the spec
fixes the default `swipePixelsToClose` at 20. -/
def SWIPE_PIXELS_TO_CLOSE : JSNum := .num 20

/-- The timer armed by `setHideTimer`:
`const { duration = DEFAULT_DURATION } = this.showParams ?? {};`
then `if (duration && !isNaN(duration)) setTimeout(..., duration)`. -/
def timerFor (sp : Option ParamFields) : Option Int :=
  let duration := match sp with
    | none => DEFAULT_DURATION
    | some f => match f.duration with
      | none => DEFAULT_DURATION
      | some d => d
  if duration.truthy && !duration.isNaNb then
    match duration with
    | .num n => some n
    | .nan => none
  else none

/-- `setHideTimer`: clear the previous timeout and arm a new one when the
duration is truthy and not NaN. -/
def setHideTimer (s : NotifierState) : NotifierState :=
  { s with hideTimer := timerFor s.showParams }

/-- `onStartHiding`: run the callback (ghost-counted), set `isHiding`, clear
the timer. -/
def onStartHiding (s : NotifierState) : NotifierState :=
  { s with isHiding := true, hideTimer := none,
           startHidingCount := s.startHidingCount + 1 }

/-- `hideNotification`: guarded on `!isShown || isHiding`; otherwise start the
exit animation (completion pending) and run `onStartHiding`. -/
def hideNotification (s : NotifierState) : NotifierState :=
  if !s.isShown || s.isHiding then s
  else onStartHiding { s with pendingHidden := s.pendingHidden + 1 }

/-- `hideNotificationById`: hide only when shown, not hiding, and
`state.id === id`. -/
def hideNotificationById (i : String) (s : NotifierState) : NotifierState :=
  if s.isShown && !s.isHiding && s.stateId == some i then hideNotification s
  else s

/-- `showCurrentLater(moveOnlyStrong)`: re-insert `currentParams` at the front
of the queue, only when shown, not hiding, current non-null, and (unless
`moveOnlyStrong` is false) `currentParams.strong === true`. -/
def showCurrentLater (moveOnlyStrong : Bool) (s : NotifierState) : NotifierState :=
  if !s.isShown || s.isHiding || s.currentParams == none then s
  else match s.currentParams with
    | none => s
    | some c =>
      if !moveOnlyStrong || c.fields.strong == some true then
        { s with callStack := c :: s.callStack }
      else s

/-- JS truthiness of an optional string: absent and `""` are falsy. -/
def idTruthy : Option String → Bool
  | none => false
  | some s => !s.isEmpty

/-- The `skipAlreadyShown` early-return condition of `showNotification`. -/
def skipShownCheck (f : ParamFields) (s : NotifierState) : Bool :=
  f.skipAlreadyShown == some true && s.isShown && !s.isHiding &&
    idTruthy f.id && s.stateId == f.id

/-- The `skipAlreadyInQueue` early-return condition of `showNotification`. -/
def skipQueueCheck (f : ParamFields) (s : NotifierState) : Bool :=
  f.skipAlreadyInQueue == some true && idTruthy f.id &&
    s.callStack.any fun item => item.fields.id == f.id

/-- `callStack.unshift(r)`. -/
def unshiftOnto (r : Req) (t : NotifierState) : NotifierState :=
  { t with callStack := r :: t.callStack }

/-- The `switch (params.queueMode)` applied while `isShown`; `r` is the fresh
merged object (its tag has already been allocated by the caller). -/
def enqueueByMode (f : ParamFields) (r : Req) (s : NotifierState) : NotifierState :=
  if f.queueMode == some "standby" then
    { s with callStack := s.callStack ++ [r] }
  else if f.queueMode == some "next" then
    unshiftOnto r s
  else if f.queueMode == some "immediate" then
    hideNotification (unshiftOnto r s)
  else if f.queueMode == some "immediateMove" then
    hideNotification (unshiftOnto r (showCurrentLater false s))
  else if f.queueMode == some "immediateMoveOnlyStrong" then
    hideNotification (unshiftOnto r (showCurrentLater true s))
  else
    hideNotification { s with callStack := [r] }

/-- The tail of `showNotification` reached when nothing is shown: set the
React state id, store `showParams`/`currentParams`, mark shown, arm the
timer, start the enter animation (whose completion has no callback). -/
def startShowing (f : ParamFields) (s : NotifierState) : NotifierState :=
  setHideTimer
    { s with stateId := f.id,
             showParams := some (restFields f),
             currentParams := some ⟨s.nextTag, f⟩,
             isShown := true,
             nextTag := s.nextTag + 1 }

/-- `showNotification(functionParams)`: merge with the component props, run
the two skip checks, then either apply the queue policy (shown) or start
showing (idle). -/
def showNotification (props fp : ParamFields) (s : NotifierState) : NotifierState :=
  if skipShownCheck (mergeFields props fp) s then s
  else if skipQueueCheck (mergeFields props fp) s then s
  else if s.isShown then
    enqueueByMode (mergeFields props fp) ⟨s.nextTag, mergeFields props fp⟩
      { s with nextTag := s.nextTag + 1 }
  else
    startShowing (mergeFields props fp) s

/-- `clearQueue(hideDisplayedNotification)`. -/
def clearQueue (hideDisplayed : Bool) (s : NotifierState) : NotifierState :=
  if hideDisplayed then hideNotification { s with callStack := [] }
  else { s with callStack := [] }

/-- `clearNotificationById(id, hideDisplayedNotification = true)`. -/
def clearNotificationById (i : String) (hideDisplayed : Bool)
    (s : NotifierState) : NotifierState :=
  if hideDisplayed then
    hideNotificationById i
      { s with callStack := s.callStack.filter fun p => !(p.fields.id == some i) }
  else
    { s with callStack := s.callStack.filter fun p => !(p.fields.id == some i) }

/-- `onHidden`: clear flags and the current request, then pop the queue and
re-show the next request (re-merged with the component props, as the
recursive `showNotification(nextNotification)` call does), or reset the
React state id. -/
def onHidden (props : ParamFields) (s : NotifierState) : NotifierState :=
  match s.callStack with
  | [] => { s with isShown := false, isHiding := false,
                   showParams := none, currentParams := none, stateId := none }
  | next :: rest =>
      showNotification props next.fields
        { s with isShown := false, isHiding := false,
                 showParams := none, currentParams := none, callStack := rest }

/-- `this.showParams?.hideOnPress !== false`. -/
def jsHideOnPress (sp : Option ParamFields) : Bool :=
  match sp with
  | none => true
  | some f => !(f.hideOnPress == some false)

/-- `onPress`: run the callback, then hide unless
`showParams?.hideOnPress !== false` fails. -/
def onPress (s : NotifierState) : NotifierState :=
  if jsHideOnPress s.showParams then hideNotification s else s

/-- The swipe-out test of `onHandlerStateChange`:
`nativeEvent.translationY < -(showParams?.swipePixelsToClose ?? SWIPE_PIXELS_TO_CLOSE)`.
A NaN threshold makes every comparison false, as in JS. -/
def swipedOut (d : Int) (spc : JSNum) : Bool :=
  match spc with
  | .num n => decide (d < -n)
  | .nan => false

/-- The configured swipe threshold read by `onHandlerStateChange`. -/
def swipeThreshold (s : NotifierState) : JSNum :=
  match s.showParams with
  | none => SWIPE_PIXELS_TO_CLOSE
  | some f => match f.swipePixelsToClose with
    | none => SWIPE_PIXELS_TO_CLOSE
    | some v => v

/-- The `oldState === ACTIVE` branch of `onHandlerStateChange`: re-arm the
timer, then if the displacement is past the threshold start the swipe-out
animation (completion pending, it will run `onHidden`) and run
`onStartHiding`; otherwise only the return-to-rest animation runs. -/
def onGestureEnd (d : Int) (s : NotifierState) : NotifierState :=
  if swipedOut d (swipeThreshold (setHideTimer s)) then
    onStartHiding { (setHideTimer s) with
                    pendingHidden := (setHideTimer s).pendingHidden + 1 }
  else setHideTimer s

/-- The `state === ACTIVE` branch of `onHandlerStateChange`: cancel the
timer while the drag is active. -/
def onGestureActive (s : NotifierState) : NotifierState :=
  { s with hideTimer := none }

/-- The external trigger points of the scheduler. -/
inductive Event where
  | showNotification (fp : ParamFields)
  | hide
  | hideById (i : String)
  | clearQueue (hideDisplayed : Bool)
  | clearById (i : String) (hideDisplayed : Bool)
  | timerFire
  | press
  | gestureActive
  | gestureEnd (d : Int)
  | animDone
deriving DecidableEq, Repr

/-- One atomic callback execution.  `timerFire` is only deliverable while a
timeout is pending; `animDone` delivers one pending exit-animation
completion. -/
def step (props : ParamFields) (s : NotifierState) : Event → NotifierState
  | .showNotification fp => showNotification props fp s
  | .hide => hideNotification s
  | .hideById i => hideNotificationById i s
  | .clearQueue hd => clearQueue hd s
  | .clearById i hd => clearNotificationById i hd s
  | .timerFire =>
      if s.hideTimer.isSome then hideNotification { s with hideTimer := none } else s
  | .press => onPress s
  | .gestureActive => onGestureActive s
  | .gestureEnd d => onGestureEnd d s
  | .animDone =>
      match s.pendingHidden with
      | 0 => s
      | n + 1 => onHidden props { s with pendingHidden := n }

/-- States reachable from the constructor state by event sequences, for a
component mounted with default params `props`. -/
inductive Reachable (props : ParamFields) : NotifierState → Prop where
  | init : Reachable props initState
  | next : ∀ s e, Reachable props s → Reachable props (step props s e)

/-! ### Concrete traces used as counterexamples and witnesses -/

/-- An unconfigured component (`this.props` with no defaults set) showing a
plain request. -/
def sShown : NotifierState :=
  step ParamFields.empty initState (.showNotification ParamFields.empty)

/-- `sShown` after an explicit `hideNotification()`: the exit animation is in
flight. -/
def sHiding : NotifierState := step ParamFields.empty sShown .hide

/-- A request with `queueMode: 'immediateMove'`. -/
def fpMove : ParamFields := { ParamFields.empty with queueMode := some "immediateMove" }

/-- `sShown` after `show({queueMode: 'immediateMove'})`. -/
def sMoved : NotifierState := step ParamFields.empty sShown (.showNotification fpMove)

/-- `sHiding` after `show({queueMode: 'immediateMove'})`. -/
def sMovedWhileHiding : NotifierState :=
  step ParamFields.empty sHiding (.showNotification fpMove)

/-- `sHiding` after the pan gesture ends with displacement −21 (past the
default threshold 20). -/
def sSecondHide : NotifierState := step ParamFields.empty sHiding (.gestureEnd (-21))

/-- A request with the empty string as id. -/
def fpEmptyId : ParamFields := { ParamFields.empty with id := some "" }

/-- A displayed notification whose id is the empty string. -/
def sShownEmptyId : NotifierState :=
  step ParamFields.empty initState (.showNotification fpEmptyId)

/-- A request with the empty-string id, `skipAlreadyShown`, and
`queueMode: 'standby'`. -/
def fpSkipEmptyId : ParamFields :=
  { ParamFields.empty with id := some "", skipAlreadyShown := some true,
                           queueMode := some "standby" }

/-- `sShownEmptyId` after `show(fpSkipEmptyId)`. -/
def sSkipAttempt : NotifierState :=
  step ParamFields.empty sShownEmptyId (.showNotification fpSkipEmptyId)

/-- A request with id "x". -/
def fpIdX : ParamFields := { ParamFields.empty with id := some "x" }

/-- A displayed notification with id "x". -/
def sShownX : NotifierState :=
  step ParamFields.empty initState (.showNotification fpIdX)

/-- A request with id "x" and `skipAlreadyShown`. -/
def fpSkipX : ParamFields :=
  { ParamFields.empty with id := some "x", skipAlreadyShown := some true }

/-- A request configuring `swipePixelsToClose: 20` explicitly. -/
def fpSwipe : ParamFields :=
  { ParamFields.empty with swipePixelsToClose := some (.num 20) }

/-- A displayed notification with an explicit swipe threshold of 20. -/
def sShownSwipe : NotifierState :=
  step ParamFields.empty initState (.showNotification fpSwipe)

/-- A request with `duration: 5`. -/
def fpDur5 : ParamFields := { ParamFields.empty with duration := some (.num 5) }

/-- A request with `queueMode: 'standby'`. -/
def fpStandby : ParamFields := { ParamFields.empty with queueMode := some "standby" }

/-- A request with `queueMode: 'next'`. -/
def fpNext : ParamFields := { ParamFields.empty with queueMode := some "next" }

/-- `sShown` after `show({queueMode: 'standby'})`: displayed A with a
one-element queue and no hide in flight. -/
def sQueued : NotifierState :=
  step ParamFields.empty sShown (.showNotification fpStandby)

/-- A request with `strong: true`. -/
def fpStrong : ParamFields := { ParamFields.empty with strong := some true }

/-- A displayed notification whose request has `strong: true`. -/
def sShownStrong : NotifierState :=
  step ParamFields.empty initState (.showNotification fpStrong)

/-- A request with `queueMode: 'immediateMoveOnlyStrong'`. -/
def fpIMOS : ParamFields :=
  { ParamFields.empty with queueMode := some "immediateMoveOnlyStrong" }

/-! ### Projection lemmas: which fields each transformer leaves unchanged -/

@[simp] theorem setHideTimer_isShown (s : NotifierState) :
    (setHideTimer s).isShown = s.isShown := rfl

@[simp] theorem setHideTimer_isHiding (s : NotifierState) :
    (setHideTimer s).isHiding = s.isHiding := rfl

@[simp] theorem setHideTimer_callStack (s : NotifierState) :
    (setHideTimer s).callStack = s.callStack := rfl

@[simp] theorem setHideTimer_currentParams (s : NotifierState) :
    (setHideTimer s).currentParams = s.currentParams := rfl

@[simp] theorem setHideTimer_showParams (s : NotifierState) :
    (setHideTimer s).showParams = s.showParams := rfl

@[simp] theorem setHideTimer_nextTag (s : NotifierState) :
    (setHideTimer s).nextTag = s.nextTag := rfl

@[simp] theorem setHideTimer_pendingHidden (s : NotifierState) :
    (setHideTimer s).pendingHidden = s.pendingHidden := rfl

@[simp] theorem setHideTimer_startHidingCount (s : NotifierState) :
    (setHideTimer s).startHidingCount = s.startHidingCount := rfl

@[simp] theorem hideNotification_callStack (s : NotifierState) :
    (hideNotification s).callStack = s.callStack := by
  unfold hideNotification; split <;> rfl

@[simp] theorem hideNotification_currentParams (s : NotifierState) :
    (hideNotification s).currentParams = s.currentParams := by
  unfold hideNotification; split <;> rfl

@[simp] theorem hideNotification_nextTag (s : NotifierState) :
    (hideNotification s).nextTag = s.nextTag := by
  unfold hideNotification; split <;> rfl

@[simp] theorem hideNotification_isShown (s : NotifierState) :
    (hideNotification s).isShown = s.isShown := by
  unfold hideNotification; split <;> rfl

@[simp] theorem hideNotification_showParams (s : NotifierState) :
    (hideNotification s).showParams = s.showParams := by
  unfold hideNotification; split <;> rfl

@[simp] theorem hideNotification_stateId (s : NotifierState) :
    (hideNotification s).stateId = s.stateId := by
  unfold hideNotification; split <;> rfl

theorem hideNotification_of_hiding (s : NotifierState) (h : s.isHiding = true) :
    hideNotification s = s := by
  unfold hideNotification; simp [h]

theorem hideNotification_of_not_shown (s : NotifierState) (h : s.isShown = false) :
    hideNotification s = s := by
  unfold hideNotification; simp [h]

theorem hideNotification_fires (s : NotifierState) (h1 : s.isShown = true)
    (h2 : s.isHiding = false) :
    hideNotification s = onStartHiding { s with pendingHidden := s.pendingHidden + 1 } := by
  unfold hideNotification; simp [h1, h2]

theorem hideNotification_isHiding_of_shown (s : NotifierState) (h : s.isShown = true) :
    (hideNotification s).isHiding = true := by
  unfold hideNotification
  split
  · rename_i hg
    simpa [h] using hg
  · rfl

/-! ### `showCurrentLater` branch characterizations -/

theorem showCurrentLater_of_hiding (b : Bool) (s : NotifierState)
    (h : s.isHiding = true) : showCurrentLater b s = s := by
  unfold showCurrentLater; simp [h]

theorem showCurrentLater_fires (b : Bool) (s : NotifierState) (c : Req)
    (h1 : s.isShown = true) (h2 : s.isHiding = false)
    (hc : s.currentParams = some c)
    (hstrong : (!b || c.fields.strong == some true) = true) :
    showCurrentLater b s = { s with callStack := c :: s.callStack } := by
  unfold showCurrentLater
  simp [h1, h2, hc, hstrong]

theorem showCurrentLater_skips_weak (s : NotifierState) (c : Req)
    (hc : s.currentParams = some c)
    (hstrong : ¬ c.fields.strong = some true) :
    showCurrentLater true s = s := by
  unfold showCurrentLater
  split
  · rfl
  · simp only [hc]
    simp [hstrong]

theorem showCurrentLater_callStack_cases (b : Bool) (s : NotifierState) :
    showCurrentLater b s = s ∨
    ∃ c, s.currentParams = some c ∧
      showCurrentLater b s = { s with callStack := c :: s.callStack } := by
  unfold showCurrentLater
  split
  · exact Or.inl rfl
  · split
    · exact Or.inl rfl
    · rename_i c heq
      split
      · exact Or.inr ⟨c, heq, rfl⟩
      · exact Or.inl rfl


@[simp] theorem showCurrentLater_isShown (b : Bool) (s : NotifierState) :
    (showCurrentLater b s).isShown = s.isShown := by
  unfold showCurrentLater
  split
  · rfl
  · split
    · rfl
    · split <;> rfl

@[simp] theorem showCurrentLater_isHiding (b : Bool) (s : NotifierState) :
    (showCurrentLater b s).isHiding = s.isHiding := by
  unfold showCurrentLater
  split
  · rfl
  · split
    · rfl
    · split <;> rfl

@[simp] theorem showCurrentLater_currentParams (b : Bool) (s : NotifierState) :
    (showCurrentLater b s).currentParams = s.currentParams := by
  unfold showCurrentLater
  split
  · rfl
  · split
    · rfl
    · split <;> rfl

@[simp] theorem showCurrentLater_nextTag (b : Bool) (s : NotifierState) :
    (showCurrentLater b s).nextTag = s.nextTag := by
  unfold showCurrentLater
  split
  · rfl
  · split
    · rfl
    · split <;> rfl

@[simp] theorem unshiftOnto_callStack (r : Req) (t : NotifierState) :
    (unshiftOnto r t).callStack = r :: t.callStack := rfl

@[simp] theorem unshiftOnto_isShown (r : Req) (t : NotifierState) :
    (unshiftOnto r t).isShown = t.isShown := rfl

@[simp] theorem unshiftOnto_isHiding (r : Req) (t : NotifierState) :
    (unshiftOnto r t).isHiding = t.isHiding := rfl

@[simp] theorem unshiftOnto_currentParams (r : Req) (t : NotifierState) :
    (unshiftOnto r t).currentParams = t.currentParams := rfl

@[simp] theorem unshiftOnto_nextTag (r : Req) (t : NotifierState) :
    (unshiftOnto r t).nextTag = t.nextTag := rfl

/-! ### The queue/displayed separation invariant -/

/-- Every request stored in the queue or in the displayed slot was allocated
before the current value of the allocation counter. -/
def TagsBelow (s : NotifierState) : Prop :=
  (∀ r ∈ s.callStack, r.tag < s.nextTag) ∧
  (∀ c, s.currentParams = some c → c.tag < s.nextTag)

/-- While shown and not hiding, the queue does not contain the displayed
request. -/
def NotQueued (s : NotifierState) : Prop :=
  s.isShown = true → s.isHiding = false →
    ∀ c, s.currentParams = some c → c ∉ s.callStack

/-- The inductive invariant of the scheduler. -/
def SchedInv (s : NotifierState) : Prop := TagsBelow s ∧ NotQueued s

theorem notQueued_of_isHiding (s : NotifierState) (h : s.isHiding = true) :
    NotQueued s := by
  intro _ hfalse
  rw [h] at hfalse
  cases hfalse

theorem notQueued_of_not_shown (s : NotifierState) (h : s.isShown = false) :
    NotQueued s := by
  intro hfalse
  rw [h] at hfalse
  cases hfalse

theorem inv_hideNotification (s : NotifierState) (h : SchedInv s) :
    SchedInv (hideNotification s) := by
  obtain ⟨⟨hq, hc⟩, hn⟩ := h
  unfold hideNotification
  split
  · exact ⟨⟨hq, hc⟩, hn⟩
  · exact ⟨⟨hq, hc⟩, notQueued_of_isHiding _ rfl⟩

/-- When the pre-hide state is shown, the post-hide state satisfies the
invariant as soon as its tags are in range: `isHiding` is true afterwards,
so `NotQueued` is vacuous. -/
theorem schedInv_hide_of_shown (t : NotifierState) (hts : t.isShown = true)
    (htags : TagsBelow t) : SchedInv (hideNotification t) := by
  refine ⟨⟨?_, ?_⟩, ?_⟩
  · intro r hr
    rw [hideNotification_callStack] at hr
    rw [hideNotification_nextTag]
    exact htags.1 r hr
  · intro c hcc
    rw [hideNotification_currentParams] at hcc
    rw [hideNotification_nextTag]
    exact htags.2 c hcc
  · exact notQueued_of_isHiding _ (hideNotification_isHiding_of_shown _ hts)

theorem inv_startShowing (f : ParamFields) (s : NotifierState) (h : TagsBelow s) :
    SchedInv (startShowing f s) := by
  obtain ⟨hq, _⟩ := h
  refine ⟨⟨?_, ?_⟩, ?_⟩
  · intro r hr
    exact Nat.lt_succ_of_lt (hq r hr)
  · intro c hc
    cases hc
    exact Nat.lt_succ_self _
  · intro _ _ c hc hmem
    cases hc
    exact Nat.lt_irrefl _ (hq _ hmem)

theorem inv_enqueueByMode (f : ParamFields) (s : NotifierState) (h : SchedInv s)
    (hshown : s.isShown = true) :
    SchedInv (enqueueByMode f ⟨s.nextTag, f⟩ { s with nextTag := s.nextTag + 1 }) := by
  obtain ⟨⟨hq, hc⟩, hn⟩ := h
  unfold enqueueByMode
  split
  · -- standby: append to the back
    refine ⟨⟨?_, ?_⟩, ?_⟩
    · intro r hr
      rcases List.mem_append.mp hr with h | h
      · exact Nat.lt_succ_of_lt (hq r h)
      · rcases List.mem_singleton.mp h with rfl
        exact Nat.lt_succ_self _
    · intro c hcc
      exact Nat.lt_succ_of_lt (hc c hcc)
    · intro hs1 hh1 c hcc hmem
      rcases List.mem_append.mp hmem with h | h
      · exact hn hshown hh1 c hcc h
      · rcases List.mem_singleton.mp h with rfl
        exact Nat.lt_irrefl _ (hc _ hcc)
  split
  · -- next: insert at the front
    refine ⟨⟨?_, ?_⟩, ?_⟩
    · intro r hr
      rcases List.mem_cons.mp hr with h | h
      · subst h
        exact Nat.lt_succ_self _
      · exact Nat.lt_succ_of_lt (hq r h)
    · intro c hcc
      exact Nat.lt_succ_of_lt (hc c hcc)
    · intro hs1 hh1 c hcc hmem
      rcases List.mem_cons.mp hmem with h | h
      · subst h
        exact Nat.lt_irrefl _ (hc _ hcc)
      · exact hn hshown hh1 c hcc h
  split
  · -- immediate
    refine schedInv_hide_of_shown _ hshown ⟨?_, ?_⟩
    · intro r hr
      rcases List.mem_cons.mp hr with h | h
      · subst h
        exact Nat.lt_succ_self _
      · exact Nat.lt_succ_of_lt (hq r h)
    · intro c hcc
      exact Nat.lt_succ_of_lt (hc c hcc)
  split
  · -- immediateMove
    refine schedInv_hide_of_shown _ (by simp [hshown]) ⟨?_, ?_⟩
    · intro r hr
      simp only [unshiftOnto_callStack, unshiftOnto_nextTag, showCurrentLater_nextTag,
        List.mem_cons] at hr ⊢
      rcases hr with rfl | hr
      · exact Nat.lt_succ_self _
      · rcases showCurrentLater_callStack_cases false
          { s with nextTag := s.nextTag + 1 } with hcase | ⟨c, hcc, hcase⟩ <;>
          rw [hcase] at hr
        · exact Nat.lt_succ_of_lt (hq r hr)
        · rcases List.mem_cons.mp hr with rfl | hr
          · exact Nat.lt_succ_of_lt (hc _ hcc)
          · exact Nat.lt_succ_of_lt (hq r hr)
    · intro c hcc
      simp only [unshiftOnto_currentParams, showCurrentLater_currentParams,
        unshiftOnto_nextTag, showCurrentLater_nextTag] at hcc ⊢
      exact Nat.lt_succ_of_lt (hc c hcc)
  split
  · -- immediateMoveOnlyStrong
    refine schedInv_hide_of_shown _ (by simp [hshown]) ⟨?_, ?_⟩
    · intro r hr
      simp only [unshiftOnto_callStack, unshiftOnto_nextTag, showCurrentLater_nextTag,
        List.mem_cons] at hr ⊢
      rcases hr with rfl | hr
      · exact Nat.lt_succ_self _
      · rcases showCurrentLater_callStack_cases true
          { s with nextTag := s.nextTag + 1 } with hcase | ⟨c, hcc, hcase⟩ <;>
          rw [hcase] at hr
        · exact Nat.lt_succ_of_lt (hq r hr)
        · rcases List.mem_cons.mp hr with rfl | hr
          · exact Nat.lt_succ_of_lt (hc _ hcc)
          · exact Nat.lt_succ_of_lt (hq r hr)
    · intro c hcc
      simp only [unshiftOnto_currentParams, showCurrentLater_currentParams,
        unshiftOnto_nextTag, showCurrentLater_nextTag] at hcc ⊢
      exact Nat.lt_succ_of_lt (hc c hcc)
  · -- default: reset
    refine schedInv_hide_of_shown _ hshown ⟨?_, ?_⟩
    · intro r hr
      rcases List.mem_singleton.mp hr with rfl
      exact Nat.lt_succ_self _
    · intro c hcc
      exact Nat.lt_succ_of_lt (hc c hcc)

theorem inv_showNotification (props fp : ParamFields) (s : NotifierState)
    (h : SchedInv s) : SchedInv (showNotification props fp s) := by
  unfold showNotification
  split
  · exact h
  split
  · exact h
  split
  · exact inv_enqueueByMode _ _ h (by assumption)
  · exact inv_startShowing _ _ h.1

theorem inv_onHidden (props : ParamFields) (s : NotifierState) (h : SchedInv s) :
    SchedInv (onHidden props s) := by
  obtain ⟨⟨hq, _⟩, _⟩ := h
  unfold onHidden
  split
  · refine ⟨⟨?_, ?_⟩, notQueued_of_not_shown _ rfl⟩
    · intro r hr
      exact hq r hr
    · intro c hc
      cases hc
  · rename_i next rest heq
    apply inv_showNotification
    refine ⟨⟨?_, ?_⟩, notQueued_of_not_shown _ rfl⟩
    · intro r hr
      exact hq r (by rw [heq]; exact List.mem_cons_of_mem _ hr)
    · intro c hc
      cases hc

theorem inv_step (props : ParamFields) (s : NotifierState) (e : Event)
    (h : SchedInv s) : SchedInv (step props s e) := by
  obtain ⟨⟨hq, hc⟩, hn⟩ := h
  cases e with
  | showNotification fp =>
    exact inv_showNotification _ _ _ ⟨⟨hq, hc⟩, hn⟩
  | hide =>
    exact inv_hideNotification _ ⟨⟨hq, hc⟩, hn⟩
  | hideById i =>
    simp only [step]
    unfold hideNotificationById
    split
    · exact inv_hideNotification _ ⟨⟨hq, hc⟩, hn⟩
    · exact ⟨⟨hq, hc⟩, hn⟩
  | clearQueue hd =>
    simp only [step]
    unfold clearQueue
    have h1 : SchedInv { s with callStack := ([] : List Req) } := by
      refine ⟨⟨?_, hc⟩, ?_⟩
      · intro r hr
        cases hr
      · intro _ _ c _ hmem
        cases hmem
    split
    · exact inv_hideNotification _ h1
    · exact h1
  | clearById i hd =>
    simp only [step]
    unfold clearNotificationById
    have h1 : SchedInv { s with
        callStack := s.callStack.filter fun p => !(p.fields.id == some i) } := by
      refine ⟨⟨?_, hc⟩, ?_⟩
      · intro r hr
        exact hq r (List.mem_of_mem_filter hr)
      · intro hs1 hh1 c hcc hmem
        exact hn hs1 hh1 c hcc (List.mem_of_mem_filter hmem)
    split
    · unfold hideNotificationById
      split
      · exact inv_hideNotification _ h1
      · exact h1
    · exact h1
  | timerFire =>
    simp only [step]
    split
    · exact inv_hideNotification _ ⟨⟨hq, hc⟩, hn⟩
    · exact ⟨⟨hq, hc⟩, hn⟩
  | press =>
    simp only [step]
    unfold onPress
    split
    · exact inv_hideNotification _ ⟨⟨hq, hc⟩, hn⟩
    · exact ⟨⟨hq, hc⟩, hn⟩
  | gestureActive =>
    exact ⟨⟨hq, hc⟩, hn⟩
  | gestureEnd d =>
    simp only [step]
    unfold onGestureEnd
    split
    · exact ⟨⟨hq, hc⟩, notQueued_of_isHiding _ rfl⟩
    · exact ⟨⟨hq, hc⟩, hn⟩
  | animDone =>
    simp only [step]
    split
    · exact ⟨⟨hq, hc⟩, hn⟩
    · exact inv_onHidden _ _ ⟨⟨hq, hc⟩, hn⟩

theorem inv_initState : SchedInv initState := by
  refine ⟨⟨?_, ?_⟩, notQueued_of_not_shown _ rfl⟩
  · intro r hr
    cases hr
  · intro c hc
    cases hc

theorem reachable_inv (props : ParamFields) (s : NotifierState)
    (h : Reachable props s) : SchedInv s := by
  induction h with
  | init => exact inv_initState
  | next s e _ ih => exact inv_step props s e ih

/-- C2 counterexample: with A displayed (`tag 0`), `show(B)` with
`queueMode: 'immediateMove'` re-inserts A into the queue while A is still the
displayed request (it stays displayed until `onHidden` fires), so a state
with displayed non-none whose queue contains the displayed request is
reachable. -/
theorem c2_counterexample :
    sMoved.isShown = true ∧
    sMoved.currentParams = some ⟨0, ParamFields.empty⟩ ∧
    (⟨0, ParamFields.empty⟩ : Req) ∈ sMoved.callStack := by
  decide

/-- C2 (amended): in every reachable state in which a notification is
displayed and no hide is in flight (`isHiding = false`), the queue does not
contain the displayed request.  (While a hide is in flight after an
`immediateMove`/`immediateMoveOnlyStrong` requeue, the displayed request is
in the queue until `onHidden` removes it.) -/
theorem c2_displayed_never_queued_outside_hiding (props : ParamFields)
    (s : NotifierState) (h : Reachable props s) (hs : s.isShown = true)
    (hh : s.isHiding = false) (c : Req) (hc : s.currentParams = some c) :
    c ∉ s.callStack :=
  (reachable_inv props s h).2 hs hh c hc

/-- Witness for C2's amended theorem at a concrete reachable state. -/
theorem c2_witness :
    Reachable ParamFields.empty sShown ∧ sShown.isShown = true ∧
    sShown.isHiding = false ∧
    sShown.currentParams = some ⟨0, ParamFields.empty⟩ ∧
    (⟨0, ParamFields.empty⟩ : Req) ∉ sShown.callStack := by
  have hr : Reachable ParamFields.empty sShown :=
    Reachable.next initState (.showNotification ParamFields.empty) Reachable.init
  exact ⟨hr, by decide, by decide, by decide,
    c2_displayed_never_queued_outside_hiding ParamFields.empty sShown hr
      (by decide) (by decide) _ (by decide)⟩

/-- C3 counterexample: while the exit animation of A (`tag 0`) is in flight
(`isHiding = true`), `show(B)` with `queueMode: 'immediateMove'` does NOT
re-insert the displayed request: `showCurrentLater` is guarded on
`!isHiding`, so the queue becomes `[B]` and A is discarded. -/
theorem c3_counterexample :
    sHiding.isShown = true ∧ sHiding.isHiding = true ∧
    sHiding.currentParams = some ⟨0, ParamFields.empty⟩ ∧
    sMovedWhileHiding.callStack = [⟨1, fpMove⟩] ∧
    (⟨0, ParamFields.empty⟩ : Req) ∉ sMovedWhileHiding.callStack := by
  decide

/-- C4 counterexample: with a hide already in flight (`isHiding = true`,
one `onStartHiding` run, one exit animation pending), a gesture-end past the
swipe threshold runs `onStartHiding` a second time and starts a second exit
animation against the same displayed notification — `onHandlerStateChange`
has no `isHiding` guard. -/
theorem c4_counterexample :
    sHiding.isHiding = true ∧ sHiding.startHidingCount = 1 ∧
    sHiding.pendingHidden = 1 ∧
    sHiding.currentParams = some ⟨0, ParamFields.empty⟩ ∧
    sSecondHide.currentParams = some ⟨0, ParamFields.empty⟩ ∧
    sSecondHide.startHidingCount = 2 ∧ sSecondHide.pendingHidden = 2 := by
  decide

/-- C4 (amended): while a hide is in flight, the triggers that route through
`hideNotification` — explicit hide, press, `hideById`, and a timer fire —
start no second `onStartHiding`/exit-animation sequence (the first three are
exact no-ops, a timer fire only consumes the spent timeout); the gesture-end
trigger is not so guarded. -/
theorem c4_guarded_triggers_while_hiding (props : ParamFields)
    (s : NotifierState) (h : s.isHiding = true) :
    step props s .hide = s ∧
    step props s .press = s ∧
    (∀ i, step props s (.hideById i) = s) ∧
    (step props s .timerFire).startHidingCount = s.startHidingCount ∧
    (step props s .timerFire).pendingHidden = s.pendingHidden := by
  refine ⟨?_, ?_, ?_, ?_, ?_⟩
  · simp only [step]
    exact hideNotification_of_hiding s h
  · simp only [step]
    unfold onPress
    split
    · exact hideNotification_of_hiding s h
    · rfl
  · intro i
    simp only [step]
    unfold hideNotificationById
    simp [h]
  · simp only [step]
    split
    · rw [hideNotification_of_hiding { s with hideTimer := none } h]
    · rfl
  · simp only [step]
    split
    · rw [hideNotification_of_hiding { s with hideTimer := none } h]
    · rfl

/-- Witness for C4's amended theorem at the concrete in-flight-hide state. -/
theorem c4_witness :
    sHiding.isHiding = true ∧
    step ParamFields.empty sHiding .hide = sHiding ∧
    step ParamFields.empty sHiding .press = sHiding ∧
    step ParamFields.empty sHiding (.hideById "x") = sHiding ∧
    (step ParamFields.empty sHiding .timerFire).startHidingCount =
      sHiding.startHidingCount ∧
    (step ParamFields.empty sHiding .timerFire).pendingHidden =
      sHiding.pendingHidden := by
  have h := c4_guarded_triggers_while_hiding ParamFields.empty sHiding (by decide)
  exact ⟨by decide, h.1, h.2.1, h.2.2.1 "x", h.2.2.2.1, h.2.2.2.2⟩

@[simp] theorem showCurrentLater_startHidingCount (b : Bool) (s : NotifierState) :
    (showCurrentLater b s).startHidingCount = s.startHidingCount := by
  unfold showCurrentLater
  split
  · rfl
  · split
    · rfl
    · split <;> rfl

@[simp] theorem showCurrentLater_pendingHidden (b : Bool) (s : NotifierState) :
    (showCurrentLater b s).pendingHidden = s.pendingHidden := by
  unfold showCurrentLater
  split
  · rfl
  · split
    · rfl
    · split <;> rfl

@[simp] theorem unshiftOnto_startHidingCount (r : Req) (t : NotifierState) :
    (unshiftOnto r t).startHidingCount = t.startHidingCount := rfl

@[simp] theorem unshiftOnto_pendingHidden (r : Req) (t : NotifierState) :
    (unshiftOnto r t).pendingHidden = t.pendingHidden := rfl

/-- With both skip checks failing and a notification shown, `showNotification`
is exactly the queue-policy dispatch on the freshly merged object. -/
theorem showNotification_shown (props fp : ParamFields) (s : NotifierState)
    (h1 : skipShownCheck (mergeFields props fp) s = false)
    (h2 : skipQueueCheck (mergeFields props fp) s = false)
    (hshown : s.isShown = true) :
    showNotification props fp s =
      enqueueByMode (mergeFields props fp) ⟨s.nextTag, mergeFields props fp⟩
        { s with nextTag := s.nextTag + 1 } := by
  unfold showNotification
  simp [h1, h2, hshown]

/-- C3 (amended): with B's merged params in `immediateMove` mode and a
notification displayed, the displayed request is re-inserted at the front of
the queue only when no hide is in flight; while the exit animation is in
flight (`isHiding = true`) the displayed request is not re-inserted.  In both
cases B lands at the very front and the hide path is (already or newly) in
flight afterwards. -/
theorem c3_immediateMove_requeue (props fp : ParamFields) (s : NotifierState)
    (A : Req)
    (h1 : skipShownCheck (mergeFields props fp) s = false)
    (h2 : skipQueueCheck (mergeFields props fp) s = false)
    (hmode : (mergeFields props fp).queueMode = some "immediateMove")
    (hshown : s.isShown = true)
    (hA : s.currentParams = some A) :
    (showNotification props fp s).callStack =
      (⟨s.nextTag, mergeFields props fp⟩ : Req) ::
        (if s.isHiding then s.callStack else A :: s.callStack) ∧
    (showNotification props fp s).isHiding = true ∧
    (showNotification props fp s).currentParams = some A := by
  rw [showNotification_shown props fp s h1 h2 hshown]
  have e1 : ((mergeFields props fp).queueMode == some "standby") = false := by
    rw [hmode]; decide
  have e2 : ((mergeFields props fp).queueMode == some "next") = false := by
    rw [hmode]; decide
  have e3 : ((mergeFields props fp).queueMode == some "immediate") = false := by
    rw [hmode]; decide
  have e4 : ((mergeFields props fp).queueMode == some "immediateMove") = true := by
    rw [hmode]; decide
  have hred : enqueueByMode (mergeFields props fp)
      ⟨s.nextTag, mergeFields props fp⟩ { s with nextTag := s.nextTag + 1 } =
      hideNotification (unshiftOnto ⟨s.nextTag, mergeFields props fp⟩
        (showCurrentLater false { s with nextTag := s.nextTag + 1 })) := by
    unfold enqueueByMode
    simp [e1, e2, e3, e4]
  rw [hred]
  rcases Bool.dichotomy s.isHiding with hhid | hhid
  · have hsc : showCurrentLater false { s with nextTag := s.nextTag + 1 } =
        { { s with nextTag := s.nextTag + 1 } with callStack := A :: s.callStack } :=
      showCurrentLater_fires false _ A hshown hhid hA rfl
    rw [hsc]
    refine ⟨?_, ?_, ?_⟩
    · rw [hideNotification_callStack]
      simp [hhid]
    · exact hideNotification_isHiding_of_shown _ hshown
    · rw [hideNotification_currentParams]
      exact hA
  · have hsc : showCurrentLater false { s with nextTag := s.nextTag + 1 } =
        { s with nextTag := s.nextTag + 1 } :=
      showCurrentLater_of_hiding false _ hhid
    rw [hsc]
    have hhide : hideNotification (unshiftOnto ⟨s.nextTag, mergeFields props fp⟩
        { s with nextTag := s.nextTag + 1 }) =
        unshiftOnto ⟨s.nextTag, mergeFields props fp⟩
          { s with nextTag := s.nextTag + 1 } :=
      hideNotification_of_hiding _ hhid
    rw [hhide]
    exact ⟨by simp [hhid], hhid, hA⟩

/-- Witness for C3's amended theorem: the not-hiding instance re-inserts the
displayed request behind the new one. -/
theorem c3_witness :
    (showNotification ParamFields.empty fpMove sShown).callStack =
      (⟨1, fpMove⟩ : Req) :: [⟨0, ParamFields.empty⟩] ∧
    (showNotification ParamFields.empty fpMove sShown).isHiding = true ∧
    (showNotification ParamFields.empty fpMove sShown).currentParams =
      some ⟨0, ParamFields.empty⟩ := by
  have h := c3_immediateMove_requeue ParamFields.empty fpMove sShown
    ⟨0, ParamFields.empty⟩ (by decide) (by decide) (by decide) (by decide) (by decide)
  exact ⟨h.1, h.2.1, h.2.2⟩

/-- C1: with a notification displayed (whatever the queue and whether a hide
is in flight) and the merged `queueMode` being `'reset'`, unrecognized, or
absent, `show(B)` replaces the whole queue by the singleton `[B]`; the
displayed request A is never re-inserted; afterwards a hide is in flight, and
a fresh `onStartHiding` ran exactly when no hide was in flight before. -/
theorem c1_default_resets_queue (props fp : ParamFields) (s : NotifierState)
    (A : Req)
    (h1 : skipShownCheck (mergeFields props fp) s = false)
    (h2 : skipQueueCheck (mergeFields props fp) s = false)
    (hmode : ∀ m : String, (mergeFields props fp).queueMode = some m →
      m ≠ "standby" ∧ m ≠ "next" ∧ m ≠ "immediate" ∧ m ≠ "immediateMove" ∧
        m ≠ "immediateMoveOnlyStrong")
    (hshown : s.isShown = true)
    (hA : s.currentParams = some A) (htag : A.tag < s.nextTag) :
    (showNotification props fp s).callStack =
      [⟨s.nextTag, mergeFields props fp⟩] ∧
    A ∉ (showNotification props fp s).callStack ∧
    (showNotification props fp s).isHiding = true ∧
    (showNotification props fp s).currentParams = some A ∧
    (s.isHiding = false →
      (showNotification props fp s).startHidingCount = s.startHidingCount + 1) := by
  rw [showNotification_shown props fp s h1 h2 hshown]
  have e1 : ((mergeFields props fp).queueMode == some "standby") = false := by
    cases hq : (mergeFields props fp).queueMode with
    | none => rfl
    | some m => exact beq_eq_false_iff_ne.mpr fun hsome =>
        (hmode m hq).1 (Option.some.inj hsome)
  have e2 : ((mergeFields props fp).queueMode == some "next") = false := by
    cases hq : (mergeFields props fp).queueMode with
    | none => rfl
    | some m => exact beq_eq_false_iff_ne.mpr fun hsome =>
        (hmode m hq).2.1 (Option.some.inj hsome)
  have e3 : ((mergeFields props fp).queueMode == some "immediate") = false := by
    cases hq : (mergeFields props fp).queueMode with
    | none => rfl
    | some m => exact beq_eq_false_iff_ne.mpr fun hsome =>
        (hmode m hq).2.2.1 (Option.some.inj hsome)
  have e4 : ((mergeFields props fp).queueMode == some "immediateMove") = false := by
    cases hq : (mergeFields props fp).queueMode with
    | none => rfl
    | some m => exact beq_eq_false_iff_ne.mpr fun hsome =>
        (hmode m hq).2.2.2.1 (Option.some.inj hsome)
  have e5 : ((mergeFields props fp).queueMode ==
      some "immediateMoveOnlyStrong") = false := by
    cases hq : (mergeFields props fp).queueMode with
    | none => rfl
    | some m => exact beq_eq_false_iff_ne.mpr fun hsome =>
        (hmode m hq).2.2.2.2 (Option.some.inj hsome)
  have hred : enqueueByMode (mergeFields props fp)
      ⟨s.nextTag, mergeFields props fp⟩ { s with nextTag := s.nextTag + 1 } =
      hideNotification { s with
        nextTag := s.nextTag + 1
        callStack := [⟨s.nextTag, mergeFields props fp⟩] } := by
    unfold enqueueByMode
    simp [e1, e2, e3, e4, e5]
  rw [hred]
  refine ⟨?_, ?_, ?_, ?_, ?_⟩
  · rw [hideNotification_callStack]
  · rw [hideNotification_callStack]
    intro hmem
    rcases List.mem_singleton.mp hmem with rfl
    exact Nat.lt_irrefl _ htag
  · exact hideNotification_isHiding_of_shown _ hshown
  · rw [hideNotification_currentParams]
    exact hA
  · intro hh
    rw [hideNotification_fires { s with
      nextTag := s.nextTag + 1
      callStack := [⟨s.nextTag, mergeFields props fp⟩] } hshown hh]
    rfl

/-- The ghost count of `onStartHiding` runs across one `hideNotification`
call, as a closed form. -/
theorem hideNotification_startHidingCount (t : NotifierState) :
    (hideNotification t).startHidingCount =
      if t.isShown && !t.isHiding then t.startHidingCount + 1
      else t.startHidingCount := by
  unfold hideNotification
  rcases Bool.dichotomy t.isShown with h1 | h1 <;>
    rcases Bool.dichotomy t.isHiding with h2 | h2 <;>
      simp [h1, h2, onStartHiding]

/-- The count of pending exit animations across one `hideNotification` call,
as a closed form. -/
theorem hideNotification_pendingHidden (t : NotifierState) :
    (hideNotification t).pendingHidden =
      if t.isShown && !t.isHiding then t.pendingHidden + 1
      else t.pendingHidden := by
  unfold hideNotification
  rcases Bool.dichotomy t.isShown with h1 | h1 <;>
    rcases Bool.dichotomy t.isHiding with h2 | h2 <;>
      simp [h1, h2, onStartHiding]

/-- Witness for C1 at a concrete state: displayed A (`tag 0`), queue
`[tag 1]`, `show({})` (no `queueMode`). -/
theorem c1_witness :
    (showNotification ParamFields.empty ParamFields.empty sQueued).callStack =
      [⟨2, ParamFields.empty⟩] ∧
    (⟨0, ParamFields.empty⟩ : Req) ∉
      (showNotification ParamFields.empty ParamFields.empty sQueued).callStack ∧
    (showNotification ParamFields.empty ParamFields.empty sQueued).isHiding = true ∧
    (showNotification ParamFields.empty ParamFields.empty sQueued).currentParams =
      some ⟨0, ParamFields.empty⟩ ∧
    (showNotification ParamFields.empty ParamFields.empty sQueued).startHidingCount =
      sQueued.startHidingCount + 1 := by
  have hm : ∀ m : String,
      (mergeFields ParamFields.empty ParamFields.empty).queueMode = some m →
      m ≠ "standby" ∧ m ≠ "next" ∧ m ≠ "immediate" ∧ m ≠ "immediateMove" ∧
        m ≠ "immediateMoveOnlyStrong" := by
    intro m hmm
    rw [show (mergeFields ParamFields.empty ParamFields.empty).queueMode = none
      from by decide] at hmm
    cases hmm
  have h := c1_default_resets_queue ParamFields.empty ParamFields.empty sQueued
    ⟨0, ParamFields.empty⟩ (by decide) (by decide) hm (by decide) (by decide)
    (by decide)
  exact ⟨h.1, h.2.1, h.2.2.1, h.2.2.2.1, h.2.2.2.2 (by decide)⟩

/-- C5: with a notification displayed and B's merged params in `next`
(resp. `standby`) mode, `show(B)` inserts B at the front (resp. back) of the
queue and leaves the displayed request, the hiding flag, the hide counters,
and the pending exit animations unchanged. -/
theorem c5_next_standby_order (props fpN fpS : ParamFields) (s : NotifierState)
    (hN1 : skipShownCheck (mergeFields props fpN) s = false)
    (hN2 : skipQueueCheck (mergeFields props fpN) s = false)
    (hmodeN : (mergeFields props fpN).queueMode = some "next")
    (hS1 : skipShownCheck (mergeFields props fpS) s = false)
    (hS2 : skipQueueCheck (mergeFields props fpS) s = false)
    (hmodeS : (mergeFields props fpS).queueMode = some "standby")
    (hshown : s.isShown = true) :
    (showNotification props fpN s).callStack =
      (⟨s.nextTag, mergeFields props fpN⟩ : Req) :: s.callStack ∧
    (showNotification props fpS s).callStack =
      s.callStack ++ [⟨s.nextTag, mergeFields props fpS⟩] ∧
    (showNotification props fpN s).currentParams = s.currentParams ∧
    (showNotification props fpS s).currentParams = s.currentParams ∧
    (showNotification props fpN s).isHiding = s.isHiding ∧
    (showNotification props fpS s).isHiding = s.isHiding ∧
    (showNotification props fpN s).startHidingCount = s.startHidingCount ∧
    (showNotification props fpS s).startHidingCount = s.startHidingCount ∧
    (showNotification props fpN s).pendingHidden = s.pendingHidden ∧
    (showNotification props fpS s).pendingHidden = s.pendingHidden := by
  rw [showNotification_shown props fpN s hN1 hN2 hshown,
      showNotification_shown props fpS s hS1 hS2 hshown]
  have eN1 : ((mergeFields props fpN).queueMode == some "standby") = false := by
    rw [hmodeN]; decide
  have eN2 : ((mergeFields props fpN).queueMode == some "next") = true := by
    rw [hmodeN]; decide
  have eS1 : ((mergeFields props fpS).queueMode == some "standby") = true := by
    rw [hmodeS]; decide
  have hredN : enqueueByMode (mergeFields props fpN)
      ⟨s.nextTag, mergeFields props fpN⟩ { s with nextTag := s.nextTag + 1 } =
      unshiftOnto ⟨s.nextTag, mergeFields props fpN⟩
        { s with nextTag := s.nextTag + 1 } := by
    unfold enqueueByMode
    simp [eN1, eN2]
  have hredS : enqueueByMode (mergeFields props fpS)
      ⟨s.nextTag, mergeFields props fpS⟩ { s with nextTag := s.nextTag + 1 } =
      { s with
        nextTag := s.nextTag + 1
        callStack := s.callStack ++ [⟨s.nextTag, mergeFields props fpS⟩] } := by
    unfold enqueueByMode
    simp [eS1]
  rw [hredN, hredS]
  exact ⟨rfl, rfl, rfl, rfl, rfl, rfl, rfl, rfl, rfl, rfl⟩

/-- Witness for C5 at a concrete state: displayed A (`tag 0`) with queue
`[X]` (`tag 1`): `next` yields `[B, X]`, `standby` yields `[X, B]`. -/
theorem c5_witness :
    (showNotification ParamFields.empty fpNext sQueued).callStack =
      [⟨2, fpNext⟩, ⟨1, fpStandby⟩] ∧
    (showNotification ParamFields.empty fpStandby sQueued).callStack =
      [⟨1, fpStandby⟩, ⟨2, fpStandby⟩] ∧
    (showNotification ParamFields.empty fpNext sQueued).currentParams =
      some ⟨0, ParamFields.empty⟩ ∧
    (showNotification ParamFields.empty fpStandby sQueued).currentParams =
      some ⟨0, ParamFields.empty⟩ ∧
    (showNotification ParamFields.empty fpNext sQueued).isHiding = false ∧
    (showNotification ParamFields.empty fpStandby sQueued).isHiding = false ∧
    (showNotification ParamFields.empty fpNext sQueued).startHidingCount = 0 ∧
    (showNotification ParamFields.empty fpStandby sQueued).startHidingCount = 0 ∧
    (showNotification ParamFields.empty fpNext sQueued).pendingHidden = 0 ∧
    (showNotification ParamFields.empty fpStandby sQueued).pendingHidden = 0 := by
  have h := c5_next_standby_order ParamFields.empty fpNext fpStandby sQueued
    (by decide) (by decide) (by decide) (by decide) (by decide) (by decide)
    (by decide)
  exact ⟨h.1, h.2.1, h.2.2.1, h.2.2.2.1, h.2.2.2.2.1, h.2.2.2.2.2.1,
    h.2.2.2.2.2.2.1, h.2.2.2.2.2.2.2.1, h.2.2.2.2.2.2.2.2.1, h.2.2.2.2.2.2.2.2.2⟩

/-- C6: with a notification A displayed, no hide in flight, and B's merged
params in `immediateMoveOnlyStrong` mode, `show(B)` re-inserts A right after
B exactly when A's `strong` flag is `true`; otherwise A is discarded and only
B is put at the front; in both cases the hide path for A starts. -/
theorem c6_immediateMoveOnlyStrong (props fp : ParamFields) (s : NotifierState)
    (A : Req)
    (h1 : skipShownCheck (mergeFields props fp) s = false)
    (h2 : skipQueueCheck (mergeFields props fp) s = false)
    (hmode : (mergeFields props fp).queueMode = some "immediateMoveOnlyStrong")
    (hshown : s.isShown = true) (hh : s.isHiding = false)
    (hA : s.currentParams = some A) :
    (showNotification props fp s).callStack =
      (⟨s.nextTag, mergeFields props fp⟩ : Req) ::
        (if A.fields.strong = some true then A :: s.callStack else s.callStack) ∧
    (showNotification props fp s).isHiding = true ∧
    (showNotification props fp s).startHidingCount = s.startHidingCount + 1 ∧
    (showNotification props fp s).currentParams = some A := by
  rw [showNotification_shown props fp s h1 h2 hshown]
  have e1 : ((mergeFields props fp).queueMode == some "standby") = false := by
    rw [hmode]; decide
  have e2 : ((mergeFields props fp).queueMode == some "next") = false := by
    rw [hmode]; decide
  have e3 : ((mergeFields props fp).queueMode == some "immediate") = false := by
    rw [hmode]; decide
  have e4 : ((mergeFields props fp).queueMode == some "immediateMove") = false := by
    rw [hmode]; decide
  have e5 : ((mergeFields props fp).queueMode ==
      some "immediateMoveOnlyStrong") = true := by
    rw [hmode]; decide
  have hred : enqueueByMode (mergeFields props fp)
      ⟨s.nextTag, mergeFields props fp⟩ { s with nextTag := s.nextTag + 1 } =
      hideNotification (unshiftOnto ⟨s.nextTag, mergeFields props fp⟩
        (showCurrentLater true { s with nextTag := s.nextTag + 1 })) := by
    unfold enqueueByMode
    simp [e1, e2, e3, e4, e5]
  rw [hred]
  by_cases hst : A.fields.strong = some true
  · have hsc : showCurrentLater true { s with nextTag := s.nextTag + 1 } =
        { { s with nextTag := s.nextTag + 1 } with callStack := A :: s.callStack } :=
      showCurrentLater_fires true _ A hshown hh hA (by simp [hst])
    rw [hsc]
    refine ⟨?_, ?_, ?_, ?_⟩
    · rw [hideNotification_callStack]
      simp [hst]
    · exact hideNotification_isHiding_of_shown _ hshown
    · rw [hideNotification_startHidingCount]
      simp [hshown, hh]
    · rw [hideNotification_currentParams]
      exact hA
  · have hsc : showCurrentLater true { s with nextTag := s.nextTag + 1 } =
        { s with nextTag := s.nextTag + 1 } :=
      showCurrentLater_skips_weak _ A hA hst
    rw [hsc]
    refine ⟨?_, ?_, ?_, ?_⟩
    · rw [hideNotification_callStack]
      simp [hst]
    · exact hideNotification_isHiding_of_shown _ hshown
    · rw [hideNotification_startHidingCount]
      simp [hshown, hh]
    · rw [hideNotification_currentParams]
      exact hA

/-- Witness for C6: displayed A with `strong: true`, so A is re-inserted
after B. -/
theorem c6_witness :
    (showNotification ParamFields.empty fpIMOS sShownStrong).callStack =
      [⟨1, fpIMOS⟩, ⟨0, fpStrong⟩] ∧
    (showNotification ParamFields.empty fpIMOS sShownStrong).isHiding = true ∧
    (showNotification ParamFields.empty fpIMOS sShownStrong).startHidingCount =
      sShownStrong.startHidingCount + 1 ∧
    (showNotification ParamFields.empty fpIMOS sShownStrong).currentParams =
      some ⟨0, fpStrong⟩ := by
  have h := c6_immediateMoveOnlyStrong ParamFields.empty fpIMOS sShownStrong
    ⟨0, fpStrong⟩ (by decide) (by decide) (by decide) (by decide) (by decide)
    (by decide)
  exact ⟨h.1, h.2.1, h.2.2.1, h.2.2.2⟩

/-- C7 counterexample: the displayed request and the incoming request share
the id `""` and `skipAlreadyShown` is set, yet the incoming request is NOT
dropped — `params.id &&` treats the empty string as falsy, so the skip check
fails and the request is enqueued (`standby`), changing the queue. -/
theorem c7_counterexample :
    sShownEmptyId.isShown = true ∧ sShownEmptyId.isHiding = false ∧
    sShownEmptyId.stateId = some "" ∧
    fpSkipEmptyId.skipAlreadyShown = some true ∧
    fpSkipEmptyId.id = some "" ∧
    sShownEmptyId.callStack = [] ∧
    sSkipAttempt.callStack = [⟨1, fpSkipEmptyId⟩] ∧
    sSkipAttempt ≠ sShownEmptyId := by
  decide

/-- C7 (amended): with `skipAlreadyShown` set, a NONEMPTY incoming id equal
to the displayed id, shown, and not hiding, `showNotification` returns the
state completely unchanged (no queue change, no flag change, no timer or
animation restart). -/
theorem c7_skip_already_shown (props fp : ParamFields) (s : NotifierState)
    (i : String)
    (hskip : (mergeFields props fp).skipAlreadyShown = some true)
    (hid : (mergeFields props fp).id = some i) (hne : i ≠ "")
    (hshown : s.isShown = true) (hh : s.isHiding = false)
    (hsid : s.stateId = some i) :
    showNotification props fp s = s := by
  have hie : i.isEmpty = false := by
    rw [Bool.eq_false_iff]
    intro hc
    exact hne ((String.isEmpty_iff i).mp hc)
  have hcheck : skipShownCheck (mergeFields props fp) s = true := by
    unfold skipShownCheck
    rw [hskip, hid, hshown, hh, hsid]
    simp [idTruthy, hie]
  unfold showNotification
  simp [hcheck]

/-- Witness for C7's amended theorem: displayed id "x", incoming
`{id: "x", skipAlreadyShown: true}` is dropped with no state change. -/
theorem c7_witness :
    showNotification ParamFields.empty fpSkipX sShownX = sShownX :=
  c7_skip_already_shown ParamFields.empty fpSkipX sShownX "x" (by decide)
    (by decide) (by decide) (by decide) (by decide) (by decide)

/-- C8: `hideNotification` outside the Showing state (nothing shown, or
already hiding) is an exact no-op, as is `hideNotificationById` for any id;
and from a Showing state two hide calls in immediate succession run exactly
one `onStartHiding`/exit-animation sequence. -/
theorem c8_hide_idempotent_guard (s t : NotifierState)
    (hs1 : s.isShown = true) (hs2 : s.isHiding = false)
    (ht : t.isShown = false ∨ t.isHiding = true) :
    hideNotification (hideNotification s) = hideNotification s ∧
    (hideNotification s).startHidingCount = s.startHidingCount + 1 ∧
    (hideNotification s).pendingHidden = s.pendingHidden + 1 ∧
    (hideNotification s).isHiding = true ∧
    hideNotification t = t ∧
    ∀ i, hideNotificationById i t = t := by
  refine ⟨?_, ?_, ?_, ?_, ?_, ?_⟩
  · exact hideNotification_of_hiding _ (hideNotification_isHiding_of_shown s hs1)
  · rw [hideNotification_startHidingCount]
    simp [hs1, hs2]
  · rw [hideNotification_pendingHidden]
    simp [hs1, hs2]
  · exact hideNotification_isHiding_of_shown s hs1
  · rcases ht with h | h
    · exact hideNotification_of_not_shown t h
    · exact hideNotification_of_hiding t h
  · intro i
    unfold hideNotificationById
    split
    · rename_i hg
      rcases ht with h | h <;> simp [h] at hg
    · rfl

/-- Witness for C8 at concrete states: the displayed state `sShown` and the
idle constructor state. -/
theorem c8_witness :
    hideNotification (hideNotification sShown) = hideNotification sShown ∧
    (hideNotification sShown).startHidingCount = sShown.startHidingCount + 1 ∧
    (hideNotification sShown).pendingHidden = sShown.pendingHidden + 1 ∧
    (hideNotification sShown).isHiding = true ∧
    hideNotification initState = initState ∧
    hideNotificationById "x" initState = initState := by
  have h := c8_hide_idempotent_guard sShown initState (by decide) (by decide)
    (Or.inl (by decide))
  exact ⟨h.1, h.2.1, h.2.2.1, h.2.2.2.1, h.2.2.2.2.1, h.2.2.2.2.2 "x"⟩

/-- C9: the swipe-out decision is the strict comparison
`translationY < -(swipePixelsToClose)`.  With a configured numeric threshold
`t`, a gesture ending at displacement `d` starts the
`onStartHiding`/exit-animation sequence exactly when `d < -t`; otherwise the
gesture-end handler only re-arms the timer (`setHideTimer`), so
`d = -t` does not dismiss and `d = -(t+1)` does. -/
theorem c9_swipe_strict_threshold (s : NotifierState) (g : ParamFields)
    (t d : Int)
    (hsp : s.showParams = some g)
    (hspc : g.swipePixelsToClose = some (.num t)) :
    (d < -t →
      (onGestureEnd d s).isHiding = true ∧
      (onGestureEnd d s).startHidingCount = s.startHidingCount + 1 ∧
      (onGestureEnd d s).pendingHidden = s.pendingHidden + 1) ∧
    (¬ d < -t → onGestureEnd d s = setHideTimer s) := by
  have hth : swipeThreshold (setHideTimer s) = .num t := by
    unfold swipeThreshold
    rw [setHideTimer_showParams, hsp]
    simp [hspc]
  constructor
  · intro hd
    have hsw : swipedOut d (swipeThreshold (setHideTimer s)) = true := by
      rw [hth]
      unfold swipedOut
      exact decide_eq_true hd
    unfold onGestureEnd
    rw [hsw]
    exact ⟨rfl, rfl, rfl⟩
  · intro hd
    have hsw : swipedOut d (swipeThreshold (setHideTimer s)) = false := by
      rw [hth]
      unfold swipedOut
      exact decide_eq_false hd
    unfold onGestureEnd
    rw [hsw]
    rfl

/-- Witness for C9: threshold 20 configured, gesture ends at −21 (one pixel
past), dismissal triggered. -/
theorem c9_witness :
    (onGestureEnd (-21) sShownSwipe).isHiding = true ∧
    (onGestureEnd (-21) sShownSwipe).startHidingCount =
      sShownSwipe.startHidingCount + 1 ∧
    (onGestureEnd (-21) sShownSwipe).pendingHidden =
      sShownSwipe.pendingHidden + 1 :=
  (c9_swipe_strict_threshold sShownSwipe (restFields fpSwipe) 20 (-21)
    (by decide) (by decide)).1 (by decide)

/-- `setHideTimer` right after `showParams := restParams` has been stored, as
a closed function of the request's `duration` field. -/
theorem timerFor_restFields (f : ParamFields) :
    timerFor (some (restFields f)) =
      match f.duration with
      | none => some 3000
      | some (.num n) => if n = 0 then none else some n
      | some .nan => none := by
  cases hd : f.duration with
  | none =>
    simp [timerFor, restFields, hd, DEFAULT_DURATION, JSNum.truthy, JSNum.isNaNb]
  | some d =>
    cases d with
    | num n =>
      by_cases h0 : n = 0
      · simp [timerFor, restFields, hd, h0, JSNum.truthy, JSNum.isNaNb]
      · simp [timerFor, restFields, hd, h0, JSNum.truthy, JSNum.isNaNb]
    | nan =>
      simp [timerFor, restFields, hd, JSNum.truthy, JSNum.isNaNb]

/-- C10: beginning to show a request from the idle state arms the auto-hide
timer from the merged `duration`: `0` or NaN arms nothing, an omitted
duration arms the default 3000, and any other numeric duration `n` arms a
timer for `n` — in every case independently of whatever timer was armed
before (`setHideTimer` clears it first). -/
theorem c10_auto_hide_duration (props fp : ParamFields) (s : NotifierState)
    (hns : s.isShown = false)
    (h2 : skipQueueCheck (mergeFields props fp) s = false) :
    ((mergeFields props fp).duration = some (.num 0) →
      (showNotification props fp s).hideTimer = none) ∧
    ((mergeFields props fp).duration = some .nan →
      (showNotification props fp s).hideTimer = none) ∧
    ((mergeFields props fp).duration = none →
      (showNotification props fp s).hideTimer = some 3000) ∧
    (∀ n : Int, n ≠ 0 → (mergeFields props fp).duration = some (.num n) →
      (showNotification props fp s).hideTimer = some n) := by
  have h1 : skipShownCheck (mergeFields props fp) s = false := by
    unfold skipShownCheck
    simp [hns]
  have hshow : showNotification props fp s =
      startShowing (mergeFields props fp) s := by
    unfold showNotification
    simp [h1, h2, hns]
  rw [hshow]
  have hht : (startShowing (mergeFields props fp) s).hideTimer =
      timerFor (some (restFields (mergeFields props fp))) := rfl
  rw [hht, timerFor_restFields]
  refine ⟨?_, ?_, ?_, ?_⟩
  · intro hd
    rw [hd]
    rfl
  · intro hd
    rw [hd]
  · intro hd
    rw [hd]
  · intro n hn hd
    rw [hd]
    simp [hn]

/-- Witness for C10: showing `{duration: 5}` from idle arms a 5ms timer. -/
theorem c10_witness :
    (showNotification ParamFields.empty fpDur5 initState).hideTimer = some 5 :=
  (c10_auto_hide_duration ParamFields.empty fpDur5 initState (by decide)
    (by decide)).2.2.2 5 (by decide) (by decide)
